import Mathlib

/-!
Verification of the earthquake-detection pipeline of
sghosh119/hacksara-earthquake-poc against its specification.

The Python sources are shallowly embedded over the rationals:

* src/src/config.py        -> Settings
* src/src/filters.py       -> apply_bandpass_filter (scipy butter+filtfilt
                              modelled by butterFiltfilt, parametric in the
                              floating-point success path)
* src/src/earthquake_detector.py
                           -> calculate_sta_lta, check_duration_criteria,
                              perform_detection, process_imu_data,
                              DetectorState, run_detector

Python float values are represented by rationals.  The source compares
quantities of the form sqrt(s) (with s a sum of squares, hence s >= 0)
against thresholds; since sqrt is not rational, every such comparison
sqrt(s) > t is decided through its square by gtSqrt s t, using the
monotonicity of sqrt on nonnegative arguments.  numpy conventions that the
source relies on (convolve mode same, broadcasting, reductions raising on
empty arrays) are embedded explicitly below.
-/

attribute [local semireducible] Rat.add Rat.mul Rat.sub Rat.inv

/-- Settings from src/src/config.py, lines 12-33.  The constructor reads
environment variables and performs no validation whatsoever; the embedding
therefore is a plain structure whose construction never fails.  The output
and logging fields (save_detection_plots, log_level) only steer I/O side
effects and are omitted. -/
structure Settings where
  pga_threshold : ℚ
  pga_confirmation : ℚ
  sta_lta_threshold : ℚ
  min_duration_seconds : ℚ
  low_cut_freq : ℚ
  high_cut_freq : ℚ
  filter_order : ℤ
  sta_window_seconds : ℚ
  lta_window_seconds : ℚ
  sample_rate : ℤ
deriving DecidableEq

/-- Default Settings values of src/src/config.py (the string defaults of the
getenv calls): 0.02, 0.05, 2.5, 0.5, 0.5, 5.0, 4, 1.0, 10.0, 104. -/
def defaultSettings : Settings :=
  { pga_threshold := 1 / 50
    pga_confirmation := 1 / 20
    sta_lta_threshold := 5 / 2
    min_duration_seconds := 1 / 2
    low_cut_freq := 1 / 2
    high_cut_freq := 5
    filter_order := 4
    sta_window_seconds := 1
    lta_window_seconds := 10
    sample_rate := 104 }

/-- Truncation toward zero, the semantics of the Python builtin int() applied
to a float, used at src/src/earthquake_detector.py lines 79-80. -/
def pyInt (q : ℚ) : ℤ :=
  if 0 ≤ q then ⌊q⌋ else ⌈q⌉

/-- Decides sqrt s > t for s ≥ 0 without leaving the rationals: for t ≥ 0
this is t^2 < s, and for t < 0 it is always true since sqrt s ≥ 0.  Used for
every comparison the source makes against an np.sqrt value. -/
def gtSqrt (s t : ℚ) : Bool :=
  if 0 ≤ t then decide (t ^ 2 < s) else true

/-- Element read with the zero fill-in used by the convolution sum: out of
range indices contribute 0. -/
def aGet (xs : List ℚ) (i : ℕ) : ℚ :=
  xs.getD i 0

/-- Full discrete convolution, numpy convolve mode full: output index n holds
the sum of a m * v (n - m); the output has length M + N - 1 for nonempty
inputs. -/
def convFull (a v : List ℚ) : List ℚ :=
  (List.range (a.length + v.length - 1)).map (fun n =>
    ((List.range (n + 1)).map (fun m => aGet a m * aGet v (n - m))).sum)

/-- numpy convolve mode same: the central max M N entries of the full
convolution, keeping the left-leaning slice that starts at
(min M N - 1) / 2.  This is the boundary zero-padding convention the
STA/LTA computation relies on. -/
def convSame (a v : List ℚ) : List ℚ :=
  ((convFull a v).drop ((min a.length v.length - 1) / 2)).take
    (max a.length v.length)

/-- The epsilon floor 1e-10 of src/src/earthquake_detector.py line 154. -/
def eps : ℚ := 1 / 10000000000

/-- Elementwise addition with numpy broadcasting: equal lengths add
pointwise, a length-one operand broadcasts, anything else raises. -/
def npAdd (a b : List ℚ) : Except String (List ℚ) :=
  if a.length = b.length then Except.ok (List.zipWith (fun x y => x + y) a b)
  else if a.length = 1 then Except.ok (b.map (fun y => a.headI + y))
  else if b.length = 1 then Except.ok (a.map (fun x => x + b.headI))
  else Except.error ("operands could not be broadcast together")

/-- Elementwise division with numpy broadcasting, same shape rules as
npAdd. -/
def npDiv (a b : List ℚ) : Except String (List ℚ) :=
  if a.length = b.length then Except.ok (List.zipWith (fun x y => x / y) a b)
  else if a.length = 1 then Except.ok (b.map (fun y => a.headI / y))
  else if b.length = 1 then Except.ok (a.map (fun x => x / b.headI))
  else Except.error ("operands could not be broadcast together")

/-- numpy max reduction: raises on an empty array, otherwise the maximum. -/
def npMax (l : List ℚ) : Except String ℚ :=
  match l with
  | [] => Except.error ("zero-size array to reduction operation maximum")
  | x :: xs => Except.ok (xs.foldl max x)

/-- Moving-average series np.convolve (np.abs data) (np.ones w / w) in mode
same, as built on src/src/earthquake_detector.py lines 148 and 151 for both
the short-term and the long-term average. -/
def sta_of (data : List ℚ) (w : ℕ) : List ℚ :=
  convSame (data.map (fun v => |v|)) (List.replicate w ((1 : ℚ) / (w : ℚ)))

/-- Embeds EarthquakeDetector calculate_sta_lta,
src/src/earthquake_detector.py lines 135-156.  Window sizes arrive as the
Python ints computed by the caller; np.ones raises on a negative size,
np.convolve raises when either operand is empty, and the final division
follows numpy broadcasting (mismatched convolution lengths for short inputs
raise there). -/
def calculate_sta_lta (data : List ℚ) (sta_window lta_window : ℤ) :
    Except String (List ℚ) :=
  if sta_window < 0 ∨ lta_window < 0 then
    Except.error ("negative dimensions are not allowed")
  else if sta_window = 0 ∨ lta_window = 0 then
    Except.error ("v cannot be empty")
  else if data.length = 0 then
    Except.error ("a cannot be empty")
  else
    let sta := sta_of data sta_window.toNat
    let lta := sta_of data lta_window.toNat
    let lta2 := lta.map (fun v => if v < eps then eps else v)
    npDiv sta lta2

/-- Embeds EarthquakeDetector check_duration_criteria,
src/src/earthquake_detector.py lines 158-179: square the three axis series,
add them under broadcasting, count samples whose magnitude
sqrt (x^2 + y^2 + z^2) exceeds pga_threshold (decided via gtSqrt), divide
the count by sample_rate and compare against min_duration_seconds. -/
def check_duration_criteria (s : Settings) (ax ay az : List ℚ) :
    Except String Bool := do
  let s1 ← npAdd (ax.map (fun v => v ^ 2)) (ay.map (fun v => v ^ 2))
  let s2 ← npAdd s1 (az.map (fun v => v ^ 2))
  let cnt := (s2.filter (fun mSq => gtSqrt mSq s.pga_threshold)).length
  if s.sample_rate = 0 then
    Except.error ("division by zero")
  else
    Except.ok
      (decide (s.min_duration_seconds ≤ (cnt : ℚ) / ((s.sample_rate : ℤ) : ℚ)))

/-- Model of the scipy calls at src/src/filters.py lines 28-34:
signal.butter (order, [low, high], btype band) followed by
signal.filtfilt.  butter validates that the normalized critical frequencies
satisfy 0 < low < high < 1 and that the order is nonnegative; filtfilt with
the default padlen = 3 * max (len a) (len b) = 3 * (2 * order + 1) for an
order-n Butterworth bandpass requires the input to be strictly longer than
padlen.  The floating-point output of the successful filter run is
represented by the core parameter, since IIR filter numerics have no exact
rational embedding; every theorem below either quantifies over core or
instantiates it with an explicitly documented concrete behavior. -/
def butterFiltfilt (core : List ℚ → List ℚ) (sample_rate : ℤ)
    (low_cut high_cut : ℚ) (order : ℤ) (data : List ℚ) :
    Except String (List ℚ) :=
  let nyquist : ℚ := ((sample_rate : ℤ) : ℚ) / 2
  let low := low_cut / nyquist
  let high := high_cut / nyquist
  if order < 0 then
    Except.error ("filter order must be a nonnegative integer")
  else if ¬(0 < low ∧ low < high ∧ high < 1) then
    Except.error ("digital filter critical frequencies must be 0 < Wn < 1")
  else if (data.length : ℤ) ≤ 3 * (2 * order + 1) then
    Except.error ("the length of the input vector x must be greater than padlen")
  else
    Except.ok (core data)

/-- Embeds apply_bandpass_filter, src/src/filters.py lines 13-38: the scipy
design-and-apply call runs inside a try block and any failure is logged and
swallowed, the raw input being returned unchanged. -/
def apply_bandpass_filter (core : List ℚ → List ℚ) (sample_rate : ℤ)
    (low_cut high_cut : ℚ) (order : ℤ) (data : List ℚ) : List ℚ :=
  match butterFiltfilt core sample_rate low_cut high_cut order data with
  | Except.ok filtered => filtered
  | Except.error _ => data

/-- Severity tiers of src/src/earthquake_detector.py lines 208-214. -/
inductive Severity where
  | low
  | medium
  | high
deriving DecidableEq

/-- Detection result assembled by perform_detection,
src/src/earthquake_detector.py lines 216-241.  pga_magnitude_sq carries the
square of pga_magnitude (the source stores sqrt of it); all comparisons the
source makes against pga_magnitude are embedded through gtSqrt on this
square. -/
structure DetectionResult where
  detected : Bool
  severity : Severity
  confidence_score : ℕ
  pga_criterion : Bool
  sta_lta_criterion : Bool
  duration_criterion : Bool
  pga_x : ℚ
  pga_y : ℚ
  pga_z : ℚ
  pga_magnitude_sq : ℚ
  max_sta_lta : ℚ
deriving DecidableEq

/-- Embeds EarthquakeDetector perform_detection,
src/src/earthquake_detector.py lines 181-243: the three criteria, their
conjunction, the criteria count, and the three-way severity choice. -/
def perform_detection (s : Settings) (pga_x pga_y pga_z : ℚ)
    (pga_magnitude_sq : ℚ) (max_sta_lta : ℚ) (duration_check : Bool) :
    DetectionResult :=
  let pga_criteria := gtSqrt pga_magnitude_sq s.pga_threshold
  let sta_lta_criteria := decide (s.sta_lta_threshold < max_sta_lta)
  let duration_criteria := duration_check
  let detected := pga_criteria && sta_lta_criteria && duration_criteria
  let confidence_score :=
    (if pga_criteria then 1 else 0) + (if sta_lta_criteria then 1 else 0) +
      (if duration_criteria then 1 else 0)
  let severity :=
    if gtSqrt pga_magnitude_sq s.pga_confirmation then Severity.high
    else if detected then Severity.medium
    else Severity.low
  { detected := detected
    severity := severity
    confidence_score := confidence_score
    pga_criterion := pga_criteria
    sta_lta_criterion := sta_lta_criteria
    duration_criterion := duration_criteria
    pga_x := pga_x
    pga_y := pga_y
    pga_z := pga_z
    pga_magnitude_sq := pga_magnitude_sq
    max_sta_lta := max_sta_lta }

/-- Input batch handed to process_imu_data: a DataFrame access raises
KeyError for an absent column, embedded as a none field.  The gyro columns
are never read by the detector and are omitted. -/
structure IMUBatch where
  accel_x : Option (List ℚ)
  accel_y : Option (List ℚ)
  accel_z : Option (List ℚ)
deriving DecidableEq

/-- Column extraction, src/src/earthquake_detector.py lines 51-53. -/
def getColumn (col : Option (List ℚ)) (name : String) :
    Except String (List ℚ) :=
  match col with
  | some l => Except.ok l
  | none => Except.error ("KeyError: " ++ name)

/-- Per-detector mutable state, src/src/earthquake_detector.py lines 32-34.
Timestamps are abstracted to the natural number supplied with each call. -/
structure DetectorState where
  detection_count : ℕ
  last_detection_time : Option ℕ
deriving DecidableEq

/-- Initial detector state set in the constructor: zero detections, no last
detection time. -/
def initState : DetectorState :=
  { detection_count := 0, last_detection_time := none }

/-- Derived signal bundle of the result dictionary,
src/src/earthquake_detector.py lines 105-112. -/
structure ProcessedData where
  filtered_accel_x : List ℚ
  filtered_accel_y : List ℚ
  filtered_accel_z : List ℚ
  sta_lta_x : List ℚ
  sta_lta_y : List ℚ
  sta_lta_z : List ℚ
deriving DecidableEq

/-- Value returned by process_imu_data: either the processed-data bundle
with a detection result, or the except-branch dictionary of lines 127-133
carrying detected = false and the error text. -/
inductive ProcResult where
  | ok (pd : ProcessedData) (dr : DetectionResult)
  | fail (error : String)
deriving DecidableEq

/-- STA window size in samples, src/src/earthquake_detector.py line 79:
int (sta_window_seconds * sample_rate). -/
def sta_window_of (s : Settings) : ℤ :=
  pyInt (s.sta_window_seconds * ((s.sample_rate : ℤ) : ℚ))

/-- LTA window size in samples, src/src/earthquake_detector.py line 80. -/
def lta_window_of (s : Settings) : ℤ :=
  pyInt (s.lta_window_seconds * ((s.sample_rate : ℤ) : ℚ))

/-- The body of the try block of process_imu_data,
src/src/earthquake_detector.py lines 49-112, in source order: extract the
three columns, bandpass-filter each axis, compute the window sizes and the
three STA/LTA series, the per-axis peaks and the combined magnitude, the
maximal ratio, the duration flag (note: evaluated on the filtered series,
exactly as the call on line 96 does), then assemble the detection result. -/
def pipeline (s : Settings) (core : List ℚ → List ℚ) (data : IMUBatch) :
    Except String (ProcessedData × DetectionResult) := do
  let ax ← getColumn data.accel_x ("accel_x")
  let ay ← getColumn data.accel_y ("accel_y")
  let az ← getColumn data.accel_z ("accel_z")
  let fx := apply_bandpass_filter core s.sample_rate s.low_cut_freq
    s.high_cut_freq s.filter_order ax
  let fy := apply_bandpass_filter core s.sample_rate s.low_cut_freq
    s.high_cut_freq s.filter_order ay
  let fz := apply_bandpass_filter core s.sample_rate s.low_cut_freq
    s.high_cut_freq s.filter_order az
  let sta_window := sta_window_of s
  let lta_window := lta_window_of s
  let rx ← calculate_sta_lta fx sta_window lta_window
  let ry ← calculate_sta_lta fy sta_window lta_window
  let rz ← calculate_sta_lta fz sta_window lta_window
  let px ← npMax (fx.map (fun v => |v|))
  let py ← npMax (fy.map (fun v => |v|))
  let pz ← npMax (fz.map (fun v => |v|))
  let pgaMagSq := px ^ 2 + py ^ 2 + pz ^ 2
  let mx ← npMax rx
  let my ← npMax ry
  let mz ← npMax rz
  let maxStaLta := max (max mx my) mz
  let dur ← check_duration_criteria s fx fy fz
  let dr := perform_detection s px py pz pgaMagSq maxStaLta dur
  Except.ok
    ({ filtered_accel_x := fx
       filtered_accel_y := fy
       filtered_accel_z := fz
       sta_lta_x := rx
       sta_lta_y := ry
       sta_lta_z := rz }, dr)

/-- Embeds process_imu_data, src/src/earthquake_detector.py lines 38-133,
together with handle_detection, lines 245-268: on success the state is
incremented and timestamped exactly when the result is detected; any
exception in the pipeline is caught and converted into the fail dictionary,
leaving the state untouched. -/
def process_imu_data (s : Settings) (core : List ℚ → List ℚ)
    (data : IMUBatch) (now : ℕ) (st : DetectorState) :
    ProcResult × DetectorState :=
  match pipeline s core data with
  | Except.error e => (ProcResult.fail e, st)
  | Except.ok (pd, dr) =>
    (ProcResult.ok pd dr,
      if dr.detected then
        { detection_count := st.detection_count + 1,
          last_detection_time := some now }
      else st)

/-- Detected flag of a process result; the except branch of lines 127-133
reports detected = false. -/
def resDetected : ProcResult → Bool
  | ProcResult.ok _ dr => dr.detected
  | ProcResult.fail _ => false

/-- Error description of a process result, when present. -/
def resError : ProcResult → Option String
  | ProcResult.ok _ _ => none
  | ProcResult.fail e => some e

/-- Duration-criterion flag of a successful process result. -/
def durationFlag : ProcResult → Option Bool
  | ProcResult.ok _ dr => some dr.duration_criterion
  | ProcResult.fail _ => none

/-- Filtered x-axis series of a successful process result. -/
def filteredX : ProcResult → Option (List ℚ)
  | ProcResult.ok pd _ => some pd.filtered_accel_x
  | ProcResult.fail _ => none

/-- Boolean payload of an Except-valued criterion computation. -/
def okBool : Except String Bool → Option Bool
  | Except.ok b => some b
  | Except.error _ => none

/-- Length of the payload of an Except-valued series computation. -/
def lenOf : Except String (List ℚ) → Option ℕ
  | Except.ok l => some l.length
  | Except.error _ => none

/-- Whether an Except computation failed. -/
def isErr {α : Type} : Except String α → Bool
  | Except.ok _ => false
  | Except.error _ => true

/-- A sequence of process_imu_data calls on one detector instance starting
from the freshly constructed state; each call carries its batch and its
timestamp. -/
def run_detector (s : Settings) (core : List ℚ → List ℚ)
    (calls : List (IMUBatch × ℕ)) : DetectorState :=
  calls.foldl (fun st c => (process_imu_data s core c.1 c.2 st).2) initState

/-- Concrete stand-in for the scipy filter output on signals whose entire
content lies outside the passband: a Butterworth bandpass has zero response
at 0 Hz, so zero-phase filtering a constant (DC) axis yields values that are
numerically negligible against every threshold compared in this pipeline;
the stand-in returns exactly zero.  Also used as an arbitrary concrete core
in theorems whose truth does not depend on the filter output. -/
def zeroCore (l : List ℚ) : List ℚ :=
  l.map (fun _ => 0)

/-- Small configuration used to exercise the pipeline with concrete data:
sample rate 4 Hz, passband 0.5 to 1 Hz (valid against Nyquist 2 Hz), filter
order 1 (padlen 9), STA window 1 s = 4 samples, LTA window 4 s = 16
samples, detection thresholds as in the defaults. -/
def cfgSmall : Settings :=
  { pga_threshold := 1 / 50
    pga_confirmation := 1 / 20
    sta_lta_threshold := 5 / 2
    min_duration_seconds := 1 / 2
    low_cut_freq := 1 / 2
    high_cut_freq := 1
    filter_order := 1
    sta_window_seconds := 1
    lta_window_seconds := 4
    sample_rate := 4 }

/-- Batch of 16 samples at 4 Hz with a constant 0.03 g acceleration on the
x axis and silence on y and z: its raw magnitude exceeds the 0.02 g
threshold on every sample (4 s of it), while its entire frequency content
is the 0 Hz component that the 0.5-1 Hz bandpass removes. -/
def batchDC : IMUBatch :=
  { accel_x := some (List.replicate 16 (3 / 100))
    accel_y := some (List.replicate 16 0)
    accel_z := some (List.replicate 16 0) }

/-- Configuration violating the Nyquist invariant: high_cut_freq = 3 Hz is
not below sample_rate / 2 = 2 Hz (everything else as in cfgSmall). -/
def cfgBadNyquist : Settings :=
  { cfgSmall with high_cut_freq := 3 }

/-- Well-formed constant batch used to drive cfgBadNyquist through the
pipeline. -/
def batchFlat : IMUBatch :=
  { accel_x := some (List.replicate 16 (1 / 100))
    accel_y := some (List.replicate 16 (1 / 100))
    accel_z := some (List.replicate 16 (1 / 100)) }

/-- Configuration for the mismatched-length scenario: order 0 (padlen 3, so
the filter applies), STA and LTA windows both 1 s = 4 samples. -/
def cfgMismatch : Settings :=
  { cfgSmall with filter_order := 0, lta_window_seconds := 1 }

/-- Malformed batch whose axis sequences have different lengths (8 vs 9):
each per-axis stage succeeds and the cross-axis magnitude sum raises the
numpy broadcast error inside the duration check. -/
def batchMismatch : IMUBatch :=
  { accel_x := some (List.replicate 8 0)
    accel_y := some (List.replicate 9 0)
    accel_z := some (List.replicate 9 0) }

/-- Malformed batch missing the accel_x column. -/
def batchMissing : IMUBatch :=
  { accel_x := none
    accel_y := some []
    accel_z := some [] }

/-- Default configuration with sta_window_seconds = 0.025, making
sta_window_seconds * sample_rate = 2.6, whose truncation (2) and rounding
(3) differ. -/
def cfgFrac : Settings :=
  { defaultSettings with sta_window_seconds := 1 / 40 }

/-- C2: severity follows the fixed priority order of lines 208-214 of
src/src/earthquake_detector.py with first match winning: whenever
pga_magnitude exceeds pga_confirmation (decided on squares by gtSqrt) the
severity is HIGH irrespective of every other input, and otherwise it is
MEDIUM exactly when the verdict is detected and LOW otherwise. -/
theorem c2_severity_priority (s : Settings) (px py pz mSq mR : ℚ)
    (dur : Bool) :
    (gtSqrt mSq s.pga_confirmation = true →
      (perform_detection s px py pz mSq mR dur).severity = Severity.high) ∧
    (gtSqrt mSq s.pga_confirmation = false →
      (perform_detection s px py pz mSq mR dur).severity =
        (if (perform_detection s px py pz mSq mR dur).detected then
          Severity.medium else Severity.low)) := by
  constructor <;> intro h <;> simp [perform_detection, h]

/-- Witness for C2: with the default thresholds, a batch whose squared PGA
magnitude is 1 (far above the 0.05 confirmation level) is HIGH even though
the duration criterion fails and the verdict is not detected. -/
theorem c2_witness :
    gtSqrt 1 defaultSettings.pga_confirmation = true ∧
    (perform_detection defaultSettings 1 0 0 1 0 false).severity =
      Severity.high ∧
    (perform_detection defaultSettings 1 0 0 1 0 false).detected = false :=
  ⟨by decide,
    (c2_severity_priority defaultSettings 1 0 0 1 0 false).1 (by decide),
    by decide⟩

/-- C3: the verdict of lines 197-203 of src/src/earthquake_detector.py is
the plain conjunction of the three criteria: detected holds exactly when
the PGA criterion, the STA/LTA criterion and the duration criterion all
hold. -/
theorem c3_fusion_conjunction (s : Settings) (px py pz mSq mR : ℚ)
    (dur : Bool) :
    (perform_detection s px py pz mSq mR dur).detected = true ↔
      (gtSqrt mSq s.pga_threshold = true ∧ s.sta_lta_threshold < mR ∧
        dur = true) := by
  simp [perform_detection, Bool.and_eq_true, decide_eq_true_eq, and_assoc]

/-- Witness for C3: with all three criteria satisfied the verdict is
detected. -/
theorem c3_witness :
    (perform_detection defaultSettings 1 0 0 1 10 true).detected = true :=
  (c3_fusion_conjunction defaultSettings 1 0 0 1 10 true).mpr
    ⟨by decide, by decide, rfl⟩

/-- C4: the confidence score of line 206 of src/src/earthquake_detector.py
is exactly the count of true criteria, hence at most 3, and it is computed
without reference to the verdict: at the default settings a batch passing
only the STA/LTA criterion scores 1 while not detected. -/
theorem c4_confidence_count :
    (∀ (s : Settings) (px py pz mSq mR : ℚ) (dur : Bool),
      (perform_detection s px py pz mSq mR dur).confidence_score =
        ((if gtSqrt mSq s.pga_threshold then 1 else 0) +
          (if s.sta_lta_threshold < mR then 1 else 0) +
          (if dur then 1 else 0)) ∧
      (perform_detection s px py pz mSq mR dur).confidence_score ≤ 3) ∧
    ((perform_detection defaultSettings 0 0 0 0 10 false).detected = false ∧
      (perform_detection defaultSettings 0 0 0 0 10 false).confidence_score
        = 1) := by
  refine ⟨fun s px py pz mSq mR dur => ⟨?_, ?_⟩, by decide, by decide⟩
  · simp [perform_detection]
  · simp only [perform_detection]
    split_ifs <;> simp

/-- C7: whenever the modelled scipy design-and-apply call fails (for any of
its failure conditions: invalid normalized cutoffs, negative order, or a
signal no longer than the padding requirement), apply_bandpass_filter of
src/src/filters.py returns the unfiltered input unchanged instead of
raising. -/
theorem c7_filter_failure_passthrough (core : List ℚ → List ℚ)
    (sample_rate : ℤ) (low_cut high_cut : ℚ) (order : ℤ) (data : List ℚ)
    (h : isErr (butterFiltfilt core sample_rate low_cut high_cut order data)
      = true) :
    apply_bandpass_filter core sample_rate low_cut high_cut order data =
      data := by
  unfold apply_bandpass_filter
  cases hb : butterFiltfilt core sample_rate low_cut high_cut order data with
  | ok y => rw [hb] at h; simp [isErr] at h
  | error e => rfl

/-- Witness for C7: a 3-sample signal is shorter than the padlen 9 of the
order-1 bandpass, the modelled scipy call fails, and the conditioner
returns the signal unchanged. -/
theorem c7_witness :
    isErr (butterFiltfilt zeroCore 4 (1 / 2) 1 1 [1, 2, 3]) = true ∧
    apply_bandpass_filter zeroCore 4 (1 / 2) 1 1 [1, 2, 3] = [1, 2, 3] :=
  ⟨by decide,
    c7_filter_failure_passthrough zeroCore 4 (1 / 2) 1 1 [1, 2, 3]
      (by decide)⟩

/-- Counterexample for C9: line 79 of src/src/earthquake_detector.py applies
the Python int conversion, which truncates toward zero, not rounding to the
nearest integer: with sta_window_seconds = 0.025 and sample_rate = 104 the
product is 2.6, the code computes window 2 while rounding yields 3. -/
theorem c9_counterexample :
    sta_window_of cfgFrac ≠
      round (cfgFrac.sta_window_seconds * (cfgFrac.sample_rate : ℚ)) := by
  decide

/-- C9 as amended: the window sizes are obtained by truncating the products
toward zero (the Python int builtin); for configurations whose products are
nonnegative this is the floor, not the nearest integer. -/
theorem c9_amended_truncation (s : Settings)
    (h1 : 0 ≤ s.sta_window_seconds * (s.sample_rate : ℚ))
    (h2 : 0 ≤ s.lta_window_seconds * (s.sample_rate : ℚ)) :
    sta_window_of s = ⌊s.sta_window_seconds * (s.sample_rate : ℚ)⌋ ∧
    lta_window_of s = ⌊s.lta_window_seconds * (s.sample_rate : ℚ)⌋ := by
  constructor <;> simp [sta_window_of, lta_window_of, pyInt, h1, h2]

/-- Witness for the amended C9 at the default configuration: the STA window
is the floor of 1.0 * 104. -/
theorem c9_witness :
    0 ≤ defaultSettings.sta_window_seconds *
      (defaultSettings.sample_rate : ℚ) ∧
    sta_window_of defaultSettings =
      ⌊defaultSettings.sta_window_seconds *
        (defaultSettings.sample_rate : ℚ)⌋ :=
  ⟨by decide,
    (c9_amended_truncation defaultSettings (by decide) (by decide)).1⟩

/-- Length of the full convolution. -/
theorem convFull_length (a v : List ℚ) :
    (convFull a v).length = a.length + v.length - 1 := by
  simp [convFull]

/-- Length of the same-mode convolution: the maximum of the operand lengths,
provided both operands are nonempty. -/
theorem convSame_length (a v : List ℚ) (ha : 1 ≤ a.length)
    (hv : 1 ≤ v.length) :
    (convSame a v).length = max a.length v.length := by
  simp only [convSame, List.length_take, List.length_drop, convFull_length]
  omega

/-- Reading any index of a list of nonnegative rationals with zero fill-in
yields a nonnegative value. -/
theorem aGet_nonneg (l : List ℚ) (h : ∀ x ∈ l, 0 ≤ x) (i : ℕ) :
    0 ≤ aGet l i := by
  induction l generalizing i with
  | nil => simp [aGet]
  | cons a t ih =>
    cases i with
    | zero => simpa [aGet] using h a (by simp)
    | succ j =>
      simp only [aGet, List.getD_cons_succ]
      exact ih (fun x hx => h x (by simp [hx])) j

/-- Full convolution of nonnegative sequences is pointwise nonnegative. -/
theorem convFull_nonneg (a v : List ℚ) (ha : ∀ x ∈ a, 0 ≤ x)
    (hv : ∀ x ∈ v, 0 ≤ x) : ∀ x ∈ convFull a v, 0 ≤ x := by
  intro x hx
  simp only [convFull, List.mem_map, List.mem_range] at hx
  obtain ⟨n, _, rfl⟩ := hx
  apply List.sum_nonneg
  intro y hy
  simp only [List.mem_map, List.mem_range] at hy
  obtain ⟨m, _, rfl⟩ := hy
  exact mul_nonneg (aGet_nonneg a ha m) (aGet_nonneg v hv (n - m))

/-- Same-mode convolution of nonnegative sequences is pointwise
nonnegative. -/
theorem convSame_nonneg (a v : List ℚ) (ha : ∀ x ∈ a, 0 ≤ x)
    (hv : ∀ x ∈ v, 0 ≤ x) : ∀ x ∈ convSame a v, 0 ≤ x := by
  intro x hx
  apply convFull_nonneg a v ha hv
  have h1 : x ∈ (convFull a v).drop ((min a.length v.length - 1) / 2) :=
    List.mem_of_mem_take hx
  exact List.mem_of_mem_drop h1

/-- Every entry of a moving-average series of sta_of is nonnegative. -/
theorem sta_of_nonneg (data : List ℚ) (w : ℕ) : ∀ x ∈ sta_of data w, 0 ≤ x := by
  intro x hx
  refine convSame_nonneg _ _ ?_ ?_ x hx
  · intro y hy
    simp only [List.mem_map] at hy
    obtain ⟨z, _, rfl⟩ := hy
    exact abs_nonneg z
  · intro y hy
    rw [List.eq_of_mem_replicate hy]
    positivity

/-- The epsilon floor is positive. -/
theorem eps_pos : (0 : ℚ) < eps := by
  norm_num [eps]

/-- Ratios of a nonnegative numerator series over the epsilon-clamped
denominators are nonnegative. -/
theorem zipWith_ratio_nonneg (a b : List ℚ) (ha : ∀ x ∈ a, 0 ≤ x) :
    ∀ z ∈ List.zipWith (fun st lt => st / max eps lt) a b, 0 ≤ z := by
  induction a generalizing b with
  | nil => simp
  | cons x t ih =>
    cases b with
    | nil => simp
    | cons y u =>
      intro z hz
      simp only [List.zipWith_cons_cons, List.mem_cons] at hz
      rcases hz with rfl | hz
      · exact div_nonneg (ha x (by simp))
          (le_of_lt (lt_of_lt_of_le eps_pos (le_max_left _ _)))
      · exact ih u (fun w hw => ha w (by simp [hw])) z hz

/-- Length of the moving-average series for a nonempty signal and a
nonempty window. -/
theorem sta_of_length (data : List ℚ) (w : ℕ) (hw : 1 ≤ w)
    (hd : 1 ≤ data.length) : (sta_of data w).length = max data.length w := by
  unfold sta_of
  rw [convSame_length] <;> simp [hw, hd]

/-- The clamp of line 154 of src/src/earthquake_detector.py agrees with the
max-with-epsilon formulation of the specification. -/
theorem clamp_eq_max (y : ℚ) : (if y < eps then eps else y) = max eps y := by
  rcases lt_or_le y eps with h | h
  · simp [h, max_eq_left (le_of_lt h)]
  · simp [not_lt.mpr h, max_eq_right h]

/-- Counterexample for C5: the same-mode convolution returns
max (input length) (window) entries, so for an input of length 2 with
windows of 3 samples, calculate_sta_lta returns a series of length 3, not
the input length. -/
theorem c5_counterexample :
    lenOf (calculate_sta_lta [1, 1] 3 3) = some 3 ∧
    ([1, 1] : List ℚ).length = 2 := by
  constructor
  · decide
  · rfl

/-- C5 as amended: provided both windows are at least one sample and no
longer than the signal (the regime the configuration is designed for),
calculate_sta_lta succeeds and returns exactly the series whose entry i is
STA i / max (LTA i) eps, where STA and LTA are the centered same-mode
zero-padded moving averages of the absolute signal over the two windows;
this series has the length of the input and every entry is nonnegative, the
clamped denominator being at least eps so that no division by zero
occurs. -/
theorem c5_amended_ratio_series (data : List ℚ) (sw lw : ℤ)
    (h1 : 1 ≤ sw) (h2 : sw ≤ (data.length : ℤ))
    (h3 : 1 ≤ lw) (h4 : lw ≤ (data.length : ℤ)) :
    calculate_sta_lta data sw lw =
      Except.ok (List.zipWith (fun st lt => st / max eps lt)
        (sta_of data sw.toNat) (sta_of data lw.toNat)) ∧
    (List.zipWith (fun st lt => st / max eps lt)
      (sta_of data sw.toNat) (sta_of data lw.toNat)).length = data.length ∧
    (∀ x ∈ List.zipWith (fun st lt => st / max eps lt)
      (sta_of data sw.toNat) (sta_of data lw.toNat), 0 ≤ x) := by
  have hL : 1 ≤ data.length := by omega
  have hsw1 : 1 ≤ sw.toNat := by omega
  have hsw2 : sw.toNat ≤ data.length := by omega
  have hlw1 : 1 ≤ lw.toNat := by omega
  have hlw2 : lw.toNat ≤ data.length := by omega
  have hlen_s : (sta_of data sw.toNat).length = data.length := by
    rw [sta_of_length data sw.toNat hsw1 hL, max_eq_left hsw2]
  have hlen_l : (sta_of data lw.toNat).length = data.length := by
    rw [sta_of_length data lw.toNat hlw1 hL, max_eq_left hlw2]
  refine ⟨?_, ?_, ?_⟩
  · unfold calculate_sta_lta
    rw [if_neg (by omega), if_neg (by omega), if_neg (by omega)]
    unfold npDiv
    rw [if_pos (by simp [hlen_s, hlen_l])]
    rw [List.zipWith_map_right]
    simp only [clamp_eq_max]
  · simp [List.length_zipWith, hlen_s, hlen_l]
  · exact zipWith_ratio_nonneg _ _ (sta_of_nonneg data sw.toNat)

/-- Witness for the amended C5 on the two-sample signal with windows of one
and two samples: the theorem applies and the ratio series is the clamped
quotient of the two moving averages. -/
theorem c5_witness :
    calculate_sta_lta [1, 2] 1 2 =
      Except.ok (List.zipWith (fun st lt => st / max eps lt)
        (sta_of [1, 2] 1) (sta_of [1, 2] 2)) :=
  (c5_amended_ratio_series [1, 2] 1 2 (by decide) (by decide) (by decide)
    (by decide)).1

/-- Any failure of the modelled scipy call makes apply_bandpass_filter
return the raw input unchanged (the except branch of src/src/filters.py
lines 36-38). -/
theorem bandpass_fallback (core : List ℚ → List ℚ) (sample_rate : ℤ)
    (low_cut high_cut : ℚ) (order : ℤ) (data : List ℚ)
    (h : isErr (butterFiltfilt core sample_rate low_cut high_cut order data)
      = true) :
    apply_bandpass_filter core sample_rate low_cut high_cut order data =
      data := by
  unfold apply_bandpass_filter
  cases hb : butterFiltfilt core sample_rate low_cut high_cut order data with
  | ok y => rw [hb] at h; simp [isErr] at h
  | error e => rfl

/-- When the high cutoff reaches or exceeds the Nyquist frequency, the
modelled scipy design call fails: the normalized high frequency is at
least 1. -/
theorem butterFiltfilt_highcut_err (core : List ℚ → List ℚ)
    (sample_rate : ℤ) (low_cut high_cut : ℚ) (order : ℤ) (data : List ℚ)
    (h1 : 0 < sample_rate) (h2 : (sample_rate : ℚ) / 2 ≤ high_cut) :
    isErr (butterFiltfilt core sample_rate low_cut high_cut order data)
      = true := by
  have hsr : (0 : ℚ) < (sample_rate : ℚ) := by exact_mod_cast h1
  have hnyq : (0 : ℚ) < (sample_rate : ℚ) / 2 := by linarith
  have hge : (1 : ℚ) ≤ high_cut / ((sample_rate : ℚ) / 2) :=
    (one_le_div hnyq).mpr h2
  have hcond : ¬(0 < low_cut / ((sample_rate : ℚ) / 2) ∧
      low_cut / ((sample_rate : ℚ) / 2) < high_cut / ((sample_rate : ℚ) / 2) ∧
      high_cut / ((sample_rate : ℚ) / 2) < 1) := by
    rintro ⟨-, -, hlt⟩
    linarith
  simp only [butterFiltfilt]
  rcases lt_or_le order 0 with ho | ho
  · rw [if_pos ho]
    rfl
  · rw [if_neg (not_lt.mpr ho), if_pos hcond]
    rfl

/-- C6: no error escapes process_imu_data.  First part: whenever the
returned result carries an error description, the result is not detected
and the detector state is returned unchanged.  Second part: a batch whose
accel_x column is missing always yields such an error result (the KeyError
of the column access is caught at the engine boundary). -/
theorem c6_error_containment :
    (∀ (s : Settings) (core : List ℚ → List ℚ) (data : IMUBatch) (now : ℕ)
      (st : DetectorState),
      (resError (process_imu_data s core data now st).1).isSome = true →
        resDetected (process_imu_data s core data now st).1 = false ∧
        (process_imu_data s core data now st).2 = st) ∧
    (∀ (s : Settings) (core : List ℚ → List ℚ) (ys zs : Option (List ℚ))
      (now : ℕ) (st : DetectorState),
      (resError (process_imu_data s core
        { accel_x := none, accel_y := ys, accel_z := zs } now st).1).isSome
        = true) := by
  constructor
  · intro s core data now st h
    cases hp : pipeline s core data with
    | error e => simp [process_imu_data, hp, resDetected]
    | ok pr =>
      rcases pr with ⟨pd, dr⟩
      rw [process_imu_data] at h
      simp only [hp] at h
      simp [resError] at h
  · intro s core ys zs now st
    rfl

/-- Witness for C6 at two concrete malformed batches: one missing the
accel_x column, one with axis sequences of lengths 8, 9 and 9 whose
cross-axis magnitude sum raises the numpy broadcast error; both yield an
error-carrying non-detected result and leave the state untouched. -/
theorem c6_witness :
    resDetected (process_imu_data defaultSettings zeroCore batchMissing 0
      initState).1 = false ∧
    (process_imu_data defaultSettings zeroCore batchMissing 0 initState).2 =
      initState ∧
    (resError (process_imu_data cfgMismatch zeroCore batchMismatch 0
      initState).1).isSome = true ∧
    resDetected (process_imu_data cfgMismatch zeroCore batchMismatch 0
      initState).1 = false ∧
    (process_imu_data cfgMismatch zeroCore batchMismatch 0 initState).2 =
      initState := by
  have hmiss := c6_error_containment.1 defaultSettings zeroCore batchMissing
    0 initState
    (c6_error_containment.2 defaultSettings zeroCore (some []) (some [])
      0 initState)
  have herr : (resError (process_imu_data cfgMismatch zeroCore batchMismatch
      0 initState).1).isSome = true := by decide
  have hmis := c6_error_containment.1 cfgMismatch zeroCore batchMismatch
    0 initState herr
  exact ⟨hmiss.1, hmiss.2, herr, hmis.1, hmis.2⟩

/-- The state returned by process_imu_data: incremented and timestamped
exactly when the returned result is detected, untouched otherwise. -/
theorem process_state_update (s : Settings) (core : List ℚ → List ℚ)
    (data : IMUBatch) (now : ℕ) (st : DetectorState) :
    (process_imu_data s core data now st).2 =
      (if resDetected (process_imu_data s core data now st).1 = true then
        { detection_count := st.detection_count + 1,
          last_detection_time := some now }
      else st) := by
  cases hp : pipeline s core data with
  | error e => simp [process_imu_data, hp, resDetected]
  | ok pr =>
    rcases pr with ⟨pd, dr⟩
    cases hd : dr.detected <;> simp [process_imu_data, hp, resDetected, hd]

/-- The none-iff-zero invariant between last_detection_time and
detection_count is preserved along any call sequence from construction. -/
theorem run_detector_inv (s : Settings) (core : List ℚ → List ℚ)
    (calls : List (IMUBatch × ℕ)) :
    ((run_detector s core calls).last_detection_time = none ↔
      (run_detector s core calls).detection_count = 0) := by
  unfold run_detector
  suffices h : ∀ (st : DetectorState),
      (st.last_detection_time = none ↔ st.detection_count = 0) →
      ((calls.foldl (fun st c => (process_imu_data s core c.1 c.2 st).2)
          st).last_detection_time = none ↔
        (calls.foldl (fun st c => (process_imu_data s core c.1 c.2 st).2)
          st).detection_count = 0) by
    exact h initState (by simp [initState])
  induction calls with
  | nil => intro st h; exact h
  | cons c rest ih =>
    intro st h
    simp only [List.foldl_cons]
    apply ih
    rw [process_state_update]
    split
    · simp
    · exact h

/-- C10: for every call sequence since construction, last_detection_time is
none exactly when detection_count is zero; and each single call increments
detection_count by one precisely when its result is detected, the state
being returned unchanged otherwise. -/
theorem c10_counter_invariant :
    (∀ (s : Settings) (core : List ℚ → List ℚ)
      (calls : List (IMUBatch × ℕ)),
      ((run_detector s core calls).last_detection_time = none ↔
        (run_detector s core calls).detection_count = 0)) ∧
    (∀ (s : Settings) (core : List ℚ → List ℚ) (data : IMUBatch) (now : ℕ)
      (st : DetectorState),
      (process_imu_data s core data now st).2.detection_count =
        st.detection_count +
          (if resDetected (process_imu_data s core data now st).1 = true
            then 1 else 0) ∧
      (resDetected (process_imu_data s core data now st).1 = false →
        (process_imu_data s core data now st).2 = st)) := by
  refine ⟨run_detector_inv, fun s core data now st => ⟨?_, ?_⟩⟩
  · rw [process_state_update]
    split <;> simp
  · intro h
    rw [process_state_update, if_neg]
    simp [h]

/-- Witness for C10: on the empty call sequence the invariant gives a zero
count, and a call failing on a malformed batch (hence not detected) leaves
the state unchanged. -/
theorem c10_witness :
    (run_detector defaultSettings zeroCore []).detection_count = 0 ∧
    (process_imu_data defaultSettings zeroCore batchMissing 0 initState).2 =
      initState :=
  ⟨(c10_counter_invariant.1 defaultSettings zeroCore []).mp rfl,
    (c10_counter_invariant.2 defaultSettings zeroCore batchMissing 0
      initState).2 (by decide)⟩

/-- C1 divergence: line 96 of src/src/earthquake_detector.py hands the
bandpass-FILTERED axes to the duration check, while the specification
requires the raw axes.  On the constant 0.03 g batch the raw magnitude
exceeds the 0.02 g threshold on all 16 samples (4 s at 4 Hz, far above the
0.5 s minimum), so the raw-series duration criterion of the claim holds;
but the pipeline evaluates the criterion on the filtered series — here the
bandpass output of a pure-DC signal, which is zero — and reports the
duration criterion false. -/
theorem c1_duration_computed_on_filtered :
    durationFlag (process_imu_data cfgSmall zeroCore batchDC 0 initState).1 =
      some false ∧
    okBool (check_duration_criteria cfgSmall (List.replicate 16 (3 / 100))
      (List.replicate 16 0) (List.replicate 16 0)) = some true := by
  decide

/-- Counterexample for C8: cfgBadNyquist violates the Nyquist invariant
(high_cut_freq = 3 is not below sample_rate / 2 = 2), yet nothing fails
fast: the configuration is constructed without any check, processing a
well-formed batch with it returns a result carrying no error at all, and
the filtering stage has silently degraded to the identity — the filtered
x-axis series in the returned bundle is the raw input. -/
theorem c8_counterexample :
    ¬(cfgBadNyquist.high_cut_freq < (cfgBadNyquist.sample_rate : ℚ) / 2) ∧
    resError (process_imu_data cfgBadNyquist zeroCore batchFlat 0
      initState).1 = none ∧
    filteredX (process_imu_data cfgBadNyquist zeroCore batchFlat 0
      initState).1 = some (List.replicate 16 (1 / 100)) := by
  decide

/-- C8 as amended: a configuration whose high cutoff reaches or exceeds the
Nyquist frequency does not fail fast; the conditioner catches the filter
design failure and silently returns the signal unchanged, and processing
continues on the raw data. -/
theorem c8_amended_silent_fallback (core : List ℚ → List ℚ)
    (sample_rate : ℤ) (low_cut high_cut : ℚ) (order : ℤ) (data : List ℚ)
    (h1 : 0 < sample_rate) (h2 : (sample_rate : ℚ) / 2 ≤ high_cut) :
    apply_bandpass_filter core sample_rate low_cut high_cut order data =
      data :=
  bandpass_fallback core sample_rate low_cut high_cut order data
    (butterFiltfilt_highcut_err core sample_rate low_cut high_cut order data
      h1 h2)

/-- Witness for the amended C8: with sample rate 4 and high cutoff 3 (at
least the Nyquist frequency 2) the conditioner passes the signal through
unchanged. -/
theorem c8_witness :
    (0 : ℤ) < 4 ∧ ((4 : ℤ) : ℚ) / 2 ≤ 3 ∧
    apply_bandpass_filter zeroCore 4 (1 / 2) 3 1 [1, 2] = [1, 2] :=
  ⟨by decide, by decide,
    c8_amended_silent_fallback zeroCore 4 (1 / 2) 3 1 [1, 2] (by decide)
      (by decide)⟩
